import Mathlib

/-!
# Verification of `proper-lockfile` (lib/lockfile.js, lib/mtime-precision.js)

A shallow embedding of the lock-acquisition engine, option normalization,
the refresher tick, the holder registry and the release/unlock paths of
`node-proper-lockfile`, together with theorems settling the frozen claims.

Modelling conventions:
* Epoch timestamps (`Date.now()`, `Stats.mtime.getTime()`) and durations
  are integral milliseconds, embedded as `ℤ`.  The one fractional JS
  artifact, `options.stale / 2` for an odd `stale`, is modelled with
  integer division; no claim depends on the lost half-millisecond.
* The injected `fs` object is embedded as a deterministic oracle: each kind
  of call (`mkdir`, `stat`, `rmdir`, the mtime-precision probe) draws its
  result from a stream indexed by how many calls of that kind were issued
  so far.  Counters are threaded through the continuation-passing code.
* Callback-style JS (`cb(err)` / `cb(null, v)`) becomes `Option ErrCode` /
  `Except ErrCode α`.
* The process-wide `locks` object and the mutable `Lock` records it holds
  are embedded as an explicit store `Sys`: records are addressed by a
  numeric id (JS object identity), the registry maps canonical keys to
  record ids.
-/

namespace ProperLockfile

/-- Error codes surfaced by the library or by the underlying fs.  `other n`
stands for any fs error code distinct from the named ones. -/
inductive ErrCode where
  | ENOENT
  | EEXIST
  | ELOCKED
  | ERELEASED
  | ENOTACQUIRED
  | ECOMPROMISED
  | other (n : Nat)
deriving DecidableEq, Repr

/-- Filesystem mtime precision, as reported by the prober (`"s" | "ms"`). -/
inductive Precision where
  | s
  | ms
deriving DecidableEq, Repr

/-- Result of `acquireLock` (`callback(err)` vs `callback(undefined, mtime,
mtimePrecision)` in lockfile.js). -/
inductive AcqResult where
  | acquired (mtime : ℤ) (prec : Precision)
  | err (code : ErrCode)
deriving DecidableEq, Repr

/-- How many fs calls of each kind have been issued so far.  The oracle is
consulted at the current index of the corresponding kind. -/
structure Cnt where
  mkdir : Nat := 0
  stat : Nat := 0
  rmdir : Nat := 0
  probe : Nat := 0
deriving DecidableEq, Repr

/-- Deterministic oracle for the injected `options.fs`: the response of the
n-th call of each kind.  `mkdir`/`rmdir` return `none` on success, `stat`
returns the sentinel's mtime (epoch ms) on success, `probe` models
`mtimePrecision.probe` returning `(mtime, precision)`. -/
structure FsOracle where
  mkdir : Nat → Option ErrCode
  stat : Nat → Except ErrCode ℤ
  rmdir : Nat → Option ErrCode
  probe : Nat → Except ErrCode (ℤ × Precision)

/-- lockfile.js `isLockStale`:
`stat.mtime.getTime() < Date.now() - options.stale`. -/
def isLockStale (mtime now stale : ℤ) : Bool :=
  decide (mtime < now - stale)

/-- lockfile.js `removeLock`: rmdir the lockfile, ignoring `ENOENT`. -/
def removeLock (o : FsOracle) (c : Cnt) : Option ErrCode × Cnt :=
  let r := o.rmdir c.rmdir
  let c := { c with rmdir := c.rmdir + 1 }
  match r with
  | some e => if e = ErrCode.ENOENT then (none, c) else (some e, c)
  | none => (none, c)

/-- The continuation of a successful `mkdir` in `acquireLock`: probe the
mtime precision; on probe failure issue a best-effort `rmdir` whose result
is ignored (`options.fs.rmdir(lockfilePath, () => {})`, lockfile.js line
62) and report the probe error. -/
def acquireProbe (o : FsOracle) (c : Cnt) : AcqResult × Cnt :=
  let r := o.probe c.probe
  let c := { c with probe := c.probe + 1 }
  match r with
  | Except.error e => (AcqResult.err e, { c with rmdir := c.rmdir + 1 })
  | Except.ok (m, p) => (AcqResult.acquired m p, c)

/-- `acquireLock` re-entered with `{ ...options, stale: 0 }` (lockfile.js
lines 86 and 103).  With `stale = 0` the `EEXIST` branch short-circuits to
`ELOCKED` before any stat, so the re-entry makes no further recursive call;
we inline that case as a non-recursive definition.
`acquireLockNoStale_eq` below proves it equal to the general definition at
any non-positive stale threshold. -/
def acquireLockNoStale (o : FsOracle) (c : Cnt) : AcqResult × Cnt :=
  let r := o.mkdir c.mkdir
  let c := { c with mkdir := c.mkdir + 1 }
  match r with
  | none => acquireProbe o c
  | some e =>
      if e ≠ ErrCode.EEXIST then (AcqResult.err e, c)
      else (AcqResult.err ErrCode.ELOCKED, c)

/-- lockfile.js `acquireLock`: mkdir the sentinel; on success probe the
mtime precision; on `EEXIST` with a positive stale threshold, stat the
sentinel, reclaim it when stale and re-enter once with staleness
disabled. -/
def acquireLock (o : FsOracle) (now stale : ℤ) (c : Cnt) : AcqResult × Cnt :=
  let r := o.mkdir c.mkdir
  let c := { c with mkdir := c.mkdir + 1 }
  match r with
  | none => acquireProbe o c
  | some e =>
      if e ≠ ErrCode.EEXIST then (AcqResult.err e, c)
      else if stale ≤ 0 then (AcqResult.err ErrCode.ELOCKED, c)
      else
        let sres := o.stat c.stat
        let c := { c with stat := c.stat + 1 }
        match sres with
        | Except.error se =>
            if se = ErrCode.ENOENT then acquireLockNoStale o c
            else (AcqResult.err se, c)
        | Except.ok m =>
            if ¬ isLockStale m now stale then (AcqResult.err ErrCode.ELOCKED, c)
            else
              match removeLock o c with
              | (some re, c) => (AcqResult.err re, c)
              | (none, c) => acquireLockNoStale o c

/-- A JS option value as it reaches the normalization code in `lock`:
missing from the options object, `null`, `false`, or a number. -/
inductive JsOpt where
  | absent
  | nullv
  | falsev
  | num (n : ℤ)
deriving DecidableEq, Repr

/-- The object spread `{ stale: 10000, ... , ...options }` in `lock`
(lockfile.js line 256): an absent `stale` becomes the default `10000`. -/
def staleDefaulted : JsOpt → JsOpt
  | JsOpt.absent => JsOpt.num 10000
  | v => v

/-- JS `x || 0`: falsy values (`null`, `false`, `0`, `undefined`) become
`0`; for a number `n` the result is `n` (the falsy case `n = 0` also
yields `n`). -/
def orZero : JsOpt → ℤ
  | JsOpt.num n => n
  | _ => 0

/-- lockfile.js line 267: `options.stale = Math.max(options.stale || 0, 2000)`,
after the defaulting spread. -/
def normStale (g : JsOpt) : ℤ :=
  max (orZero (staleDefaulted g)) 2000

/-- lockfile.js lines 268-269, applied to the already-normalized stale:
`options.update = options.update == null ? options.stale / 2 : options.update || 0;`
`options.update = Math.max(Math.min(options.update, options.stale / 2), 1000);`
The base defaults give `update: null`, so an absent update also takes the
first branch. -/
def normUpdate (g : JsOpt) (stale : ℤ) : ℤ :=
  let u : ℤ :=
    match g with
    | JsOpt.absent => stale / 2
    | JsOpt.nullv => stale / 2
    | JsOpt.falsev => 0
    | JsOpt.num n => n
  max (min u (stale / 2)) 1000

/-- mtime-precision.js `getMtime`: `Math.ceil(now / 1000) * 1000` for
second precision (`-((-now) / 1000)` is the ceiling of `now / 1000` for
integral `now`, with `/` the floor division of `ℤ`), `now` unchanged for
millisecond precision. -/
def getMtime (prec : Precision) (now : ℤ) : ℤ :=
  match prec with
  | Precision.s => -((-now) / 1000) * 1000
  | Precision.ms => now

/-- The distinct error objects handed to `setLockAsCompromised` by the
refresher tick: a failed stat (the stat error retagged `ECOMPROMISED`),
the "Unable to update lock within the stale threshold" mtime mismatch, or
a failed utimes (retagged `ECOMPROMISED`). -/
inductive CompromiseKind where
  | statFail (code : ErrCode)
  | notMine
  | utimesFail (code : ErrCode)
deriving DecidableEq, Repr

/-- What a refresher tick continuation decides to do next (the observable
effect of the nested callbacks in `updateLock`, lockfile.js lines
147-207). -/
inductive TickAction where
  | fireCompromised (kind : CompromiseKind)
  | retrySoon
  | proceedUtimes (writeMtime : ℤ)
  | doNothing
  | refreshedOk (writeMtime : ℤ)
deriving DecidableEq, Repr

/-- In-memory `Lock` record (lib/types.ts, built in lockfile.js lines
294-302).  `updateTimeout` records whether a refresh tick is scheduled;
the `options` back-reference is passed separately. -/
structure LockRecord where
  lockfilePath : String
  mtime : ℤ
  mtimePrecision : Precision
  lastUpdate : ℤ
  updateDelay : Option ℤ := none
  updateTimeout : Bool := false
  released : Bool := false
deriving DecidableEq, Repr

/-- The continuation of `options.fs.stat` inside a refresher tick
(lockfile.js lines 152-179): `lk` is the record as the continuation
observes it (an interleaved unlock may already have set `released`),
`now` is the `Date.now()` of the over-threshold test, `nowWrite` the
`Date.now()` inside `mtimePrecision.getMtime`.  Note the source checks
`released` only in the utimes continuation, not here. -/
def statCont (lk : LockRecord) (stale now nowWrite : ℤ)
    (resp : Except ErrCode ℤ) : TickAction :=
  let isOverThreshold := lk.lastUpdate + stale < now
  match resp with
  | Except.error e =>
      if e = ErrCode.ENOENT ∨ isOverThreshold then
        TickAction.fireCompromised (CompromiseKind.statFail e)
      else TickAction.retrySoon
  | Except.ok statMtime =>
      let isMtimeOurs := lk.mtime = statMtime
      if ¬ isMtimeOurs then TickAction.fireCompromised CompromiseKind.notMine
      else TickAction.proceedUtimes (getMtime lk.mtimePrecision nowWrite)

/-- The continuation of `options.fs.utimes` inside a refresher tick
(lockfile.js lines 181-206): `lk` is the record as the continuation
observes it, `writeMtime` the mtime just written, `now` the `Date.now()`
of the over-threshold test.  This continuation returns immediately when
the lock was released while utimes was in flight. -/
def utimesCont (lk : LockRecord) (stale now writeMtime : ℤ)
    (resp : Option ErrCode) : TickAction :=
  let isOverThreshold := lk.lastUpdate + stale < now
  if lk.released then TickAction.doNothing
  else
    match resp with
    | some e =>
        if e = ErrCode.ENOENT ∨ isOverThreshold then
          TickAction.fireCompromised (CompromiseKind.utimesFail e)
        else TickAction.retrySoon
    | none => TickAction.refreshedOk writeMtime

/-- `Math.trunc(a / 1000)` for integral `a`: division truncating toward
zero. -/
def jsTrunc1000 (a : ℤ) : ℤ :=
  Int.tdiv a 1000

/-- `Math.round(a / 1000)` for integral `a`: `Math.round x = ⌊x + 1/2⌋`,
which for integral `a` is the floor division `(a + 500) / 1000`. -/
def jsRound1000 (a : ℤ) : ℤ :=
  (a + 500) / 1000

/-- The mtime comparison rule as the specification states it (spec §4.5
step 3): exact match for `ms`; for `s`, equality of the truncated or of
the rounded second counts.  Stated here only to be compared with the
source's check in `statCont`, which is exact equality for both
precisions. -/
def isEqualMtimesSpec (prec : Precision) (a b : ℤ) : Bool :=
  match prec with
  | Precision.ms => a == b
  | Precision.s => (jsTrunc1000 a == jsTrunc1000 b) || (jsRound1000 a == jsRound1000 b)

/-- lockfile.js `check`, after path resolution: stat the lockfile; on
`ENOENT` report unlocked, on another stat error surface it, otherwise
report locked iff the sentinel is not stale (lines 378-386).  `stale` is
the normalized threshold (line 368, same clamp as `normStale`). -/
def check (statResp : Except ErrCode ℤ) (now stale : ℤ) : Except ErrCode Bool :=
  match statResp with
  | Except.error e =>
      if e = ErrCode.ENOENT then Except.ok false else Except.error e
  | Except.ok m => Except.ok (! isLockStale m now stale)

/-- The process-wide mutable state: the store of `Lock` records (addressed
by id, standing for JS object identity) and the `locks` registry mapping
canonical keys to the record they currently hold. -/
structure Sys where
  records : Nat → LockRecord
  locks : List (String × Nat)
  nextId : Nat

/-- Registry lookup (`locks[file]`). -/
def regLookup : List (String × Nat) → String → Option Nat
  | [], _ => none
  | (k, id) :: rest, file => if k = file then some id else regLookup rest file

/-- Registry deletion (`delete locks[file]`). -/
def regErase (l : List (String × Nat)) (file : String) : List (String × Nat) :=
  l.filter (fun p => p.1 ≠ file)

/-- Mutate the record with identity `id` in place. -/
def updRecord (s : Sys) (id : Nat) (f : LockRecord → LockRecord) : Sys :=
  { s with records := fun j => if j = id then f (s.records j) else s.records j }

/-- lockfile.js `setLockAsCompromised` (lines 228-244), state part: mark
the record released, cancel its update timer, and delete the registry
entry only if the registry still maps the key to this very record
(`locks[file] === lock`).  The `onCompromised` callback invocation carries
no state and is omitted here. -/
def setLockAsCompromised (file : String) (id : Nat) (s : Sys) : Sys :=
  let s' := updRecord s id (fun r => { r with released := true, updateTimeout := false })
  if regLookup s'.locks file = some id then
    { s' with locks := regErase s'.locks file }
  else s'

/-- The acquisition continuation inside `lock` (lockfile.js lines
283-305): on error the error is surfaced and nothing is inserted; on
success a fresh record is built and stored under the canonical key (plain
object assignment `locks[file] = {...}`, modelled as insert-overwriting),
with the refresher scheduled.  Returns the id of the new record (captured
by the release handle closure). -/
def lockCont (file lockfilePath : String) (now : ℤ) (res : AcqResult)
    (s : Sys) : Except ErrCode Nat × Sys :=
  match res with
  | AcqResult.err e => (Except.error e, s)
  | AcqResult.acquired m p =>
      let id := s.nextId
      let newLock : LockRecord :=
        { lockfilePath := lockfilePath, mtime := m, mtimePrecision := p,
          lastUpdate := now, updateDelay := none, updateTimeout := true,
          released := false }
      (Except.ok id,
        { records := fun j => if j = id then newLock else s.records j,
          locks := (file, id) :: regErase s.locks file,
          nextId := s.nextId + 1 })

/-- The fs calls a release/unlock path may issue. -/
inductive FsCall where
  | realpathCall
  | mkdirCall
  | statCall
  | rmdirCall
  | utimesCall
deriving DecidableEq, Repr

/-- `path.resolve` applied to a canonical key: keys in the registry are
already absolute normalized paths, on which `path.resolve` is the
identity; it performs no fs access. -/
def pathResolve (file : String) : String :=
  file

/-- lockfile.js `resolveCanonicalPath` (lines 35-43): with `realpath`
disabled, lexically resolve without touching the fs; with it enabled,
consult `options.fs.realpath` (its oracle response `realpathResp`). -/
def resolveCanonicalPath (realpath : Bool) (realpathResp : Except ErrCode String)
    (file : String) : Except ErrCode String × List FsCall :=
  if realpath then (realpathResp, [FsCall.realpathCall])
  else (Except.ok (pathResolve file), [])

/-- lockfile.js `unlock` (lines 326-353): resolve the path, look the
record up (failing with `ENOTACQUIRED` when absent), cancel its timer,
mark it released, delete the registry entry, then `removeLock` (rmdir
swallowing `ENOENT`).  Also returns the list of fs calls issued. -/
def unlock (realpath : Bool) (realpathResp : Except ErrCode String)
    (rmdirResp : Option ErrCode) (file : String) (s : Sys) :
    Except ErrCode Unit × Sys × List FsCall :=
  match resolveCanonicalPath realpath realpathResp file with
  | (Except.error e, ops) => (Except.error e, s, ops)
  | (Except.ok f, ops) =>
      match regLookup s.locks f with
      | none => (Except.error ErrCode.ENOTACQUIRED, s, ops)
      | some id =>
          let s' := updRecord s id (fun r => { r with updateTimeout := false, released := true })
          let s' := { s' with locks := regErase s'.locks f }
          match rmdirResp with
          | some e =>
              if e = ErrCode.ENOENT then (Except.ok (), s', ops ++ [FsCall.rmdirCall])
              else (Except.error e, s', ops ++ [FsCall.rmdirCall])
          | none => (Except.ok (), s', ops ++ [FsCall.rmdirCall])

/-- The release handle closure returned by `lock` (lockfile.js lines
307-315): it captures the canonical `file` and the record (id); when the
record is already released it reports `ERELEASED` to the callback without
any fs access, otherwise it invokes `unlock` on the canonical key with
`realpath` disabled (`unlock(file, { ...options, realpath: false }, cb)`). -/
def releaseHandle (realpathResp : Except ErrCode String) (rmdirResp : Option ErrCode)
    (file : String) (id : Nat) (s : Sys) :
    Except ErrCode Unit × Sys × List FsCall :=
  if (s.records id).released then (Except.error ErrCode.ERELEASED, s, [])
  else unlock false realpathResp rmdirResp file s

/-- A concrete filesystem for claim C1: the sentinel directory already
exists (first mkdir fails `EEXIST`) and its mtime is 60 seconds in the
past (40000 at `now = 100000`); removal and the second create succeed. -/
def c1_fs : FsOracle :=
  { mkdir := fun n => if n = 0 then some ErrCode.EEXIST else none
    stat := fun _ => Except.ok 40000
    rmdir := fun _ => none
    probe := fun _ => Except.ok (100000, Precision.ms) }

/-- A concrete filesystem for claim C10: mkdir succeeds, the probe fails. -/
def c10_fs : FsOracle :=
  { mkdir := fun _ => none
    stat := fun _ => Except.ok 0
    rmdir := fun _ => none
    probe := fun _ => Except.error (ErrCode.other 7) }

/-- A concrete empty process state for claim C10. -/
def c10_sys : Sys :=
  { records := fun _ =>
      { lockfilePath := "t.lock", mtime := 0,
        mtimePrecision := Precision.ms, lastUpdate := 0 }
    locks := []
    nextId := 0 }

/-- A released record observed by a refresher continuation (claim C4). -/
def c4_lk : LockRecord :=
  { lockfilePath := "t.lock", mtime := 500, mtimePrecision := Precision.ms,
    lastUpdate := 0, released := true }

/-- A second-precision record for claim C3 whose stored mtime is 1500 ms. -/
def c3_lk : LockRecord :=
  { lockfilePath := "t.lock", mtime := 1500, mtimePrecision := Precision.s,
    lastUpdate := 0 }

/-- A process state holding one compromised (released) record, its
registry entry already removed by `setLockAsCompromised` (claim C2). -/
def c2_sys : Sys :=
  { records := fun _ =>
      { lockfilePath := "t.lock", mtime := 0, mtimePrecision := Precision.ms,
        lastUpdate := 0, released := true }
    locks := []
    nextId := 1 }

/-- A process state holding one live (unreleased) record under key `"t"`
(claim C9). -/
def c9_sys : Sys :=
  { records := fun _ =>
      { lockfilePath := "t.lock", mtime := 0, mtimePrecision := Precision.ms,
        lastUpdate := 0 }
    locks := [("t", 0)]
    nextId := 1 }

/-! ## Theorems -/

/-! ## Helper lemmas -/

theorem acquireProbe_mkdir (o : FsOracle) (c : Cnt) :
    (acquireProbe o c).2.mkdir = c.mkdir := by
  unfold acquireProbe
  rcases o.probe c.probe with e | ⟨m, p⟩ <;> rfl

theorem removeLock_mkdir (o : FsOracle) (c : Cnt) :
    (removeLock o c).2.mkdir = c.mkdir := by
  unfold removeLock
  rcases o.rmdir c.rmdir with _ | e
  · rfl
  · by_cases h : e = ErrCode.ENOENT <;> simp [h]

theorem acquireLockNoStale_mkdir (o : FsOracle) (c : Cnt) :
    (acquireLockNoStale o c).2.mkdir = c.mkdir + 1 := by
  unfold acquireLockNoStale
  rcases o.mkdir c.mkdir with _ | e
  · exact acquireProbe_mkdir o _
  · by_cases h : e = ErrCode.EEXIST <;> simp [h]

/-- The re-entry definition agrees with `acquireLock` at a non-positive
stale threshold: `acquireLockNoStale` is literally "the algorithm with
staleness disabled". -/
theorem acquireLockNoStale_eq (o : FsOracle) (now stale : ℤ) (hs : stale ≤ 0)
    (c : Cnt) : acquireLockNoStale o c = acquireLock o now stale c := by
  unfold acquireLockNoStale acquireLock
  rcases o.mkdir c.mkdir with _ | e
  · rfl
  · by_cases he : e = ErrCode.EEXIST <;> simp [he, hs]

/-- Claim C5 (confirmed): each `acquireLock` performs at most one
stale-reclaim pass — the post-`EEXIST` stat failing with `ENOENT`, or the
removal of a stale sentinel, re-enters exactly once with staleness
disabled (`acquireLockNoStale`, one further mkdir) — so every acquisition
issues at most two sentinel-create attempts, whatever the filesystem
responds. -/
theorem c5_theorem :
    ∀ (o : FsOracle) (now stale : ℤ) (c : Cnt),
      (acquireLock o now stale c).2.mkdir ≤ c.mkdir + 2 ∧
      (acquireLockNoStale o c).2.mkdir = c.mkdir + 1 := by
  intro o now stale c
  refine ⟨?_, acquireLockNoStale_mkdir o c⟩
  unfold acquireLock
  rcases o.mkdir c.mkdir with _ | e
  · rw [acquireProbe_mkdir]
    simp only [Cnt.mkdir]
    omega
  · by_cases he : e = ErrCode.EEXIST
    · simp only [he, ne_eq, not_true_eq_false, if_false, reduceIte]
      by_cases hs : stale ≤ 0
      · simp [hs]
      · simp only [hs, if_false]
        rcases o.stat c.stat with se | m
        · by_cases hse : se = ErrCode.ENOENT
          · simp only [hse, if_true, reduceIte]
            rw [acquireLockNoStale_mkdir]
          · simp [hse]
        · by_cases hst : ¬ isLockStale m now stale
          · simp [hst]
          · simp only [hst, if_false, reduceIte]
            rcases hrm : removeLock o { c with mkdir := c.mkdir + 1, stat := c.stat + 1 } with ⟨_ | re, c'⟩
            · have := removeLock_mkdir o { c with mkdir := c.mkdir + 1, stat := c.stat + 1 }
              rw [hrm] at this
              simp only []
              rw [acquireLockNoStale_mkdir]
              simp at this
              omega
            · have := removeLock_mkdir o { c with mkdir := c.mkdir + 1, stat := c.stat + 1 }
              rw [hrm] at this
              simp at this ⊢
              omega
    · simp [he]

/-- Claim C1 (counterexample): with `stale: false`, `lock` does not return
`ELOCKED` on a sentinel whose mtime is 60 s old — the threshold is clamped
to 2000 ms, the sentinel counts as stale, a reclaim rmdir is issued and
acquisition succeeds. -/
theorem c1_counterexample :
    normStale JsOpt.falsev = 2000 ∧
    (acquireLock c1_fs 100000 (normStale JsOpt.falsev) {}).1 =
      AcqResult.acquired 100000 Precision.ms ∧
    (acquireLock c1_fs 100000 (normStale JsOpt.falsev) {}).2.rmdir = 1 := by
  decide

/-- Claim C1 (amended): `lock` normalizes `stale = false`/`0` to 2000 ms,
so staleness is never disabled at the `lock` level.  On an existing
sentinel, acquisition with `stale: false` returns `ELOCKED` (without any
reclaim) only when the sentinel's mtime is within the clamped 2000 ms
threshold; a 60 s-old sentinel is instead reclaimed and acquisition
re-enters once and succeeds.  (Only the internal re-entry runs with
staleness actually disabled.) -/
theorem c1_theorem (o : FsOracle) (now m m2 : ℤ) (p : Precision)
    (hmk : o.mkdir 0 = some ErrCode.EEXIST) (hst : o.stat 0 = Except.ok m) :
    normStale JsOpt.falsev = 2000 ∧ normStale (JsOpt.num 0) = 2000 ∧
    (¬ m < now - 2000 →
      acquireLock o now (normStale JsOpt.falsev) {} =
        (AcqResult.err ErrCode.ELOCKED, ⟨1, 1, 0, 0⟩)) ∧
    (m < now - 2000 → o.rmdir 0 = none → o.mkdir 1 = none →
      o.probe 0 = Except.ok (m2, p) →
      acquireLock o now (normStale JsOpt.falsev) {} =
        (AcqResult.acquired m2 p, ⟨2, 1, 1, 1⟩)) := by
  have hns : normStale JsOpt.falsev = 2000 := by decide
  refine ⟨hns, by decide, ?_, ?_⟩
  · intro hfresh
    unfold acquireLock
    simp [hns, hmk, hst, isLockStale, hfresh]
  · intro hstale hrm hmk2 hpr
    unfold acquireLock
    simp [hns, hmk, hst, isLockStale, hstale, removeLock, hrm,
      acquireLockNoStale, hmk2, acquireProbe, hpr]

/-- Witness for `c1_theorem` at the concrete 60 s-old-sentinel input. -/
theorem c1_witness :
    acquireLock c1_fs 100000 (normStale JsOpt.falsev) {} =
      (AcqResult.acquired 100000 Precision.ms, ⟨2, 1, 1, 1⟩) :=
  (c1_theorem c1_fs 100000 40000 100000 Precision.ms rfl rfl).2.2.2
    (by decide) rfl rfl rfl

/-- Claim C10 (confirmed): when the mtime-precision probe fails right
after the sentinel was created, `acquireLock` issues a best-effort rmdir
of the just-created sentinel (its result is ignored — the oracle's rmdir
stream is never consulted), surfaces the probe error, and the `lock`
continuation inserts nothing into the registry. -/
theorem c10_theorem (o : FsOracle) (now stale : ℤ) (c : Cnt) (e : ErrCode)
    (file lfp : String) (s : Sys)
    (hmk : o.mkdir c.mkdir = none) (hpr : o.probe c.probe = Except.error e) :
    acquireLock o now stale c =
      (AcqResult.err e,
        { c with mkdir := c.mkdir + 1, probe := c.probe + 1, rmdir := c.rmdir + 1 }) ∧
    lockCont file lfp now (AcqResult.err e) s = (Except.error e, s) := by
  constructor
  · unfold acquireLock acquireProbe
    simp [hmk, hpr]
  · rfl

/-- Witness for `c10_theorem` at a concrete probe failure. -/
theorem c10_witness :
    acquireLock c10_fs 0 10000 {} =
      (AcqResult.err (ErrCode.other 7), ⟨1, 0, 1, 1⟩) ∧
    lockCont "t" "t.lock" 0 (AcqResult.err (ErrCode.other 7)) c10_sys =
      (Except.error (ErrCode.other 7), c10_sys) :=
  c10_theorem c10_fs 0 10000 {} (ErrCode.other 7) "t" "t.lock" c10_sys rfl rfl

theorem regLookup_regErase (l : List (String × Nat)) (file : String) :
    regLookup (regErase l file) file = none := by
  induction l with
  | nil => rfl
  | cons p rest ih =>
      obtain ⟨k, i⟩ := p
      by_cases h : k = file
      · simpa [regErase, List.filter, h] using ih
      · simpa [regErase, List.filter, h, regLookup] using ih

/-- Claim C8 (confirmed): the compromise path removes the registry entry
for a canonical key exactly when the registry still maps that key to the
record being compromised (`locks[file] === lock`); a compromise of a stale
record leaves the entry of a re-acquired lock under the same key in place.
The compromised record itself is always marked released. -/
theorem c8_theorem :
    ∀ (s : Sys) (file : String) (id : Nat),
      regLookup (setLockAsCompromised file id s).locks file =
        (if regLookup s.locks file = some id then none
         else regLookup s.locks file) ∧
      ((setLockAsCompromised file id s).records id).released = true := by
  intro s file id
  constructor
  · unfold setLockAsCompromised updRecord
    by_cases h : regLookup s.locks file = some id
    · simp [h, regLookup_regErase]
    · simp [h]
  · unfold setLockAsCompromised updRecord
    by_cases h : regLookup s.locks file = some id <;> simp [h]

/-- Claim C4 (amended): only the utimes continuation of a refresher tick
rechecks `released` — when it observes `released` it does nothing.  The
stat continuation does not consult `released` at all (its action is
unchanged if the flag is cleared), so a tick whose stat returns after an
interleaved release can still fire `on_compromised`. -/
theorem c4_theorem :
    ∀ (lk : LockRecord) (stale now nowW wm : ℤ) (uresp : Option ErrCode)
      (sresp : Except ErrCode ℤ),
      (lk.released = true → utimesCont lk stale now wm uresp = TickAction.doNothing) ∧
      statCont lk stale now nowW sresp =
        statCont { lk with released := false } stale now nowW sresp := by
  intro lk stale now nowW wm uresp sresp
  constructor
  · intro h
    unfold utimesCont
    simp [h]
  · rfl

/-- Claim C4 (counterexample): the stat continuation runs to a compromise
on a record whose `released` flag is already set — it does not recheck the
flag, contradicting "a tick that observes released performs no further
work". -/
theorem c4_counterexample :
    c4_lk.released = true ∧
    statCont c4_lk 10000 1000 1000 (Except.error ErrCode.ENOENT) =
      TickAction.fireCompromised (CompromiseKind.statFail ErrCode.ENOENT) := by
  decide

/-- Witness for `c4_theorem`: the utimes continuation on a released record
does nothing. -/
theorem c4_witness :
    utimesCont c4_lk 10000 1000 1000 (some ErrCode.ENOENT) = TickAction.doNothing :=
  (c4_theorem c4_lk 10000 1000 1000 1000 (some ErrCode.ENOENT)
    (Except.error ErrCode.ENOENT)).1 rfl

/-- Claim C3 (amended): the refresher compares the sentinel's stat mtime
to the record's mtime by exact equality for both precisions
(`lock.mtime.getTime() === stat.mtime.getTime()`); the `NotMine`
compromise fires iff they differ.  `mtime_precision` influences only the
mtime that is written (ceiled to a whole second for `s`), not the
comparison. -/
theorem c3_theorem :
    ∀ (lk : LockRecord) (stale now nowW m : ℤ),
      (statCont lk stale now nowW (Except.ok m) =
          TickAction.fireCompromised CompromiseKind.notMine ↔ ¬ lk.mtime = m) ∧
      (lk.mtime = m →
        statCont lk stale now nowW (Except.ok m) =
          TickAction.proceedUtimes (getMtime lk.mtimePrecision nowW)) := by
  intro lk stale now nowW m
  constructor
  · unfold statCont
    by_cases h : lk.mtime = m <;> simp [h]
  · intro h
    unfold statCont
    simp [h]

/-- Claim C3 (counterexample): at second precision, mtimes 1500 and 1600
are equal under the claimed trunc/round rule, yet the code's comparison
fires the `NotMine` compromise for them. -/
theorem c3_counterexample :
    isEqualMtimesSpec Precision.s 1500 1600 = true ∧
    statCont c3_lk 10000 1000 1000 (Except.ok 1600) =
      TickAction.fireCompromised CompromiseKind.notMine := by
  decide

/-- Witness for `c3_theorem`: on an exact mtime match the tick proceeds to
the utimes write with the precision-adjusted mtime. -/
theorem c3_witness :
    statCont c3_lk 10000 1000 2500 (Except.ok 1500) =
      TickAction.proceedUtimes (getMtime Precision.s 2500) :=
  (c3_theorem c3_lk 10000 1000 2500 1500).2 rfl

/-- Claim C2 (amended): invoking the release handle on a record already
marked released (e.g. by the compromise path) performs no filesystem
operation and leaves the state untouched — but it does not resolve
successfully: it reports the `ERELEASED` error to the callback. -/
theorem c2_theorem :
    ∀ (rp : Except ErrCode String) (rm : Option ErrCode) (file : String)
      (id : Nat) (s : Sys),
      (s.records id).released = true →
      releaseHandle rp rm file id s = (Except.error ErrCode.ERELEASED, s, []) := by
  intro rp rm file id s h
  unfold releaseHandle
  simp [h]

/-- Claim C2 (counterexample): releasing an already-compromised lock does
not resolve successfully — the callback receives the `ERELEASED` error
(while indeed no fs operation is performed). -/
theorem c2_counterexample :
    (releaseHandle (Except.ok "t") none "t" 0 c2_sys).1 =
      Except.error ErrCode.ERELEASED ∧
    (releaseHandle (Except.ok "t") none "t" 0 c2_sys).2.2 = [] :=
  ⟨rfl, rfl⟩

/-- Witness for `c2_theorem` on the concrete compromised state. -/
theorem c2_witness :
    releaseHandle (Except.ok "t") none "t" 0 c2_sys =
      (Except.error ErrCode.ERELEASED, c2_sys, []) :=
  c2_theorem (Except.ok "t") none "t" 0 c2_sys rfl

theorem unlock_false_noRealpath (rp : Except ErrCode String) (rm : Option ErrCode)
    (f : String) (s : Sys) :
    FsCall.realpathCall ∉ (unlock false rp rm f s).2.2 := by
  unfold unlock resolveCanonicalPath
  simp only [Bool.false_eq_true, if_false, reduceIte]
  cases regLookup s.locks (pathResolve f) with
  | none => simp
  | some id =>
      cases rm with
      | none => simp
      | some e => by_cases h : e = ErrCode.ENOENT <;> simp [h]

/-- Claim C9 (confirmed): the release handle always calls `unlock` on the
captured canonical key with `realpath` disabled: its outcome is
independent of the `fs.realpath` oracle (so it is unaffected by the
original target path having been deleted), it never issues a realpath
call, and with the registry entry present and rmdir succeeding it
resolves successfully. -/
theorem c9_theorem :
    ∀ (rp rp' : Except ErrCode String) (rm : Option ErrCode) (file : String)
      (id : Nat) (s : Sys),
      releaseHandle rp rm file id s = releaseHandle rp' rm file id s ∧
      FsCall.realpathCall ∉ (releaseHandle rp rm file id s).2.2 ∧
      ((s.records id).released = false → regLookup s.locks file = some id →
        rm = none → (releaseHandle rp rm file id s).1 = Except.ok ()) := by
  intro rp rp' rm file id s
  refine ⟨?_, ?_, ?_⟩
  · unfold releaseHandle
    by_cases h : (s.records id).released
    · simp [h]
    · simp [h]
      rfl
  · unfold releaseHandle
    by_cases h : (s.records id).released
    · simp [h]
    · simpa [h] using unlock_false_noRealpath rp rm file s
  · intro hrel hreg hrm
    unfold releaseHandle unlock resolveCanonicalPath
    simp [hrel, pathResolve, hreg, hrm]

/-- Witness for `c9_theorem`: release succeeds although the realpath
oracle would report the target as deleted. -/
theorem c9_witness :
    (releaseHandle (Except.error ErrCode.ENOENT) none "t" 0 c9_sys).1 =
      Except.ok () :=
  (c9_theorem (Except.error ErrCode.ENOENT) (Except.ok "x") none "t" 0
    c9_sys).2.2 rfl rfl rfl

/-- Claim C6 (confirmed): option normalization in `lock` clamps the stale
threshold to `max(given, 2000)` with default 10000, defaults the update
interval to `stale / 2` when unspecified (absent or null), and otherwise
clamps the given update into `[1000, stale / 2]` (an explicitly falsy
update is clamped up to 1000); the normalized values are stored once in
the options and never written again. -/
theorem c6_theorem :
    ∀ (g : JsOpt) (q : ℤ),
      normStale JsOpt.absent = 10000 ∧
      normStale (JsOpt.num q) = max q 2000 ∧
      2000 ≤ normStale g ∧
      normUpdate JsOpt.absent (normStale g) = normStale g / 2 ∧
      normUpdate JsOpt.nullv (normStale g) = normStale g / 2 ∧
      normUpdate JsOpt.falsev (normStale g) = 1000 ∧
      normUpdate (JsOpt.num q) (normStale g) =
        max (min q (normStale g / 2)) 1000 ∧
      1000 ≤ normUpdate (JsOpt.num q) (normStale g) ∧
      normUpdate (JsOpt.num q) (normStale g) ≤ normStale g / 2 := by
  intro g q
  have h2000 : 2000 ≤ normStale g := by
    cases g with
    | absent => decide
    | nullv => decide
    | falsev => decide
    | num n => exact le_max_right n 2000
  have h1000 : (1000 : ℤ) ≤ normStale g / 2 := by
    rw [Int.le_ediv_iff_mul_le (by norm_num)]
    omega
  refine ⟨by decide, ?_, h2000, ?_, ?_, ?_, rfl, le_max_right _ _, ?_⟩
  · rfl
  · unfold normUpdate
    simp [max_eq_left h1000]
  · unfold normUpdate
    simp [max_eq_left h1000]
  · unfold normUpdate
    have : min (0 : ℤ) (normStale g / 2) = 0 := min_eq_left (by omega)
    simp [this]
  · unfold normUpdate
    exact max_le (min_le_right _ _) h1000

/-- Claim C7 (confirmed): `check` maps a "not found" stat to
`Locked(false)`, a successful stat to `Locked(true)` exactly when
`stat.mtime ≥ now − stale`, and surfaces every other stat error
unchanged. -/
theorem c7_theorem :
    ∀ (now stale m : ℤ) (e : ErrCode),
      check (Except.error ErrCode.ENOENT) now stale = Except.ok false ∧
      (check (Except.ok m) now stale = Except.ok true ↔ now - stale ≤ m) ∧
      (e ≠ ErrCode.ENOENT → check (Except.error e) now stale = Except.error e) := by
  intro now stale m e
  refine ⟨rfl, ?_, fun h => by simp [check, h]⟩
  simp [check, isLockStale, not_lt]

/-- Witness for `c7_theorem`: a non-`ENOENT` stat error surfaces
unchanged. -/
theorem c7_witness :
    check (Except.error (ErrCode.other 0)) 5 3 = Except.error (ErrCode.other 0) :=
  (c7_theorem 5 3 0 (ErrCode.other 0)).2.2 (by decide)

end ProperLockfile
